import Mathlib

/-!
Verification of the priority-arbitration and workload-aware assignment engine
of the redmine-ollama-auto-ticketing service.

The Python sources embedded here are `config.py`, `models.py` and
`devops_service.py` (class `DevOpsAutomationService`).  HTTP calls to the
ticket store, the workload source and the generation backend are modelled as
explicit outcome values handed to the embedded functions; everything the
service computes from those outcomes is translated faithfully, branch by
branch.  `TEST_MODE` is modelled as false (the production code path).
-/

/- ---------------------------------------------------------------------------
String helpers.  Python's `.lower()`, `.strip()`, `.upper()` and the
substring test `needle in hay` are modelled over the character list of a
`String` so that every definition reduces in the kernel.
--------------------------------------------------------------------------- -/

/-- Does the first character list start the second?  (helper for the
substring test) -/
def startsWithChars : List Char → List Char → Bool
  | [], _ => true
  | _ :: _, [] => false
  | c :: cs, h :: hs => c == h && startsWithChars cs hs

/-- Contiguous-substring test on character lists, the semantics of Python's
`needle in hay` for strings. -/
def containsChars (hay needle : List Char) : Bool :=
  match hay with
  | [] => needle.isEmpty
  | _ :: hs => startsWithChars needle hay || containsChars hs needle

/-- Python `hay.__contains__(needle)` for strings. -/
def strContains (hay needle : String) : Bool := containsChars hay.data needle.data

/-- Python `s.lower()`. -/
def toLowerStr (s : String) : String := ⟨s.data.map Char.toLower⟩

/-- Python `s.upper()`. -/
def toUpperStr (s : String) : String := ⟨s.data.map Char.toUpper⟩

/-- Python `s.strip()`: drop leading and trailing whitespace. -/
def trimStr (s : String) : String :=
  ⟨((s.data.dropWhile Char.isWhitespace).reverse.dropWhile Char.isWhitespace).reverse⟩

/- ---------------------------------------------------------------------------
Configuration (`config.py`, class `Config`).  Team rosters, production
aliases and the Redmine base URL; the network endpoints themselves are out
of scope.
--------------------------------------------------------------------------- -/

/-- A team-member record from `Config.L1_MEMBERS` / `Config.L2_MEMBERS`.
L1 dictionaries carry a `max_tickets` key, L2 dictionaries do not; the
optional field models the presence or absence of that key. -/
structure Member where
  user_id : Nat
  name : String
  max_tickets : Option Nat := none
deriving Repr, DecidableEq

/-- `Config.L1_MEMBERS`. -/
def L1_MEMBERS : List Member :=
  [ ⟨1239, "Shashikiran Umakanth", some 5⟩,
    ⟨1330, "Jon Joseph", some 5⟩,
    ⟨1329, "Lakshmi A B", some 5⟩,
    ⟨1328, "Musab Acharath", some 5⟩,
    ⟨1327, "Afsana ashraf", some 5⟩,
    ⟨1155, "Sreehari Padmakumar", some 5⟩,
    ⟨1795, "Joel Mathew", some 5⟩ ]

/-- `Config.L2_MEMBERS`. -/
def L2_MEMBERS : List Member :=
  [ ⟨21, "Arun Ramdas", none⟩,
    ⟨155, "Manoja Ningaraja", none⟩,
    ⟨11, "Jerish Vijay", none⟩,
    ⟨10, "Angel Varghese", none⟩ ]

/-- `Config.CRITICAL_ENVIRONMENTS`. -/
def CRITICAL_ENVIRONMENTS : List String := ["prod", "production", "live"]

/-- `Config.REDMINE_BASE_URL` (default value). -/
def REDMINE_BASE_URL : String := "https://techsupport.6dtech.co.in"

/- ---------------------------------------------------------------------------
Ticket model.  A Redmine issue as consumed by the service: the dictionary
keys the code reads (`id`, `subject`, `description`, `priority.name`,
`priority.id`, `custom_fields`).
--------------------------------------------------------------------------- -/

/-- One entry of a ticket's `custom_fields` list (`cf['name']`,
`cf.get('value', '')`). -/
structure CustomField where
  name : String
  value : String
deriving Repr, DecidableEq

/-- The fields of a Redmine ticket dictionary that the service reads. -/
structure Ticket where
  id : Nat
  subject : String
  description : String
  priority_name : String
  priority_id : Nat
  custom_fields : List CustomField
deriving Repr, DecidableEq

/-- The dict comprehension `{cf['name']: cf.get('value','') for cf in
ticket.get('custom_fields', [])}` followed by `.get(key, '')`: a later
entry with the same name overwrites an earlier one, so the lookup finds the
last matching entry; a missing key yields `''`. -/
def cfValue (fields : List CustomField) (key : String) : String :=
  match fields.reverse.find? (fun cf => cf.name == key) with
  | some cf => cf.value
  | none => ""

/- ---------------------------------------------------------------------------
Priority arbitration (`analyze_priority_and_environment`,
devops_service.py lines 95-134).
--------------------------------------------------------------------------- -/

/-- `PRIORITY_IDS` table local to `analyze_priority_and_environment`. -/
def PRIORITY_IDS : List (String × Nat) :=
  [ ("P1(Critical)", 4), ("P2(High)", 5), ("P3(Medium)", 3),
    ("P4(Low)", 2), ("P5(Trivial)", 1) ]

/-- `PRIORITY_IDS[name]` (the code only looks up keys present in the
table). -/
def priorityIdOf (name : String) : Nat :=
  match PRIORITY_IDS.find? (fun p => p.1 == name) with
  | some p => p.2
  | none => 0

/-- `custom_fields.get('Deployment Environment Tags', '').lower().strip()`. -/
def normalizedEnvTag (t : Ticket) : String :=
  trimStr (toLowerStr (cfValue t.custom_fields "Deployment Environment Tags"))

/-- `any(env in environment for env in self.config.CRITICAL_ENVIRONMENTS)`:
some configured production alias occurs as a substring of the normalized
tag. -/
def isProductionTag (environment : String) : Bool :=
  CRITICAL_ENVIRONMENTS.any (fun env => strContains environment env)

/-- Return value of `analyze_priority_and_environment` (a Python 5-tuple). -/
structure ArbitrationResult where
  original_priority : String
  adjusted_priority : String
  environment : String
  was_downgraded : Bool
  new_priority_id : Nat
deriving Repr, DecidableEq

/-- `analyze_priority_and_environment(ticket)`: only `P1(Critical)` is
adjusted, and only when no production alias matches the normalized tag, in
which case it becomes `P2(High)` (id 5) with `was_downgraded = True`. -/
def analyze_priority_and_environment (t : Ticket) : ArbitrationResult :=
  let environment := normalizedEnvTag t
  if t.priority_name == "P1(Critical)" then
    if !(isProductionTag environment) then
      { original_priority := t.priority_name, adjusted_priority := "P2(High)",
        environment := environment, was_downgraded := true,
        new_priority_id := priorityIdOf "P2(High)" }
    else
      { original_priority := t.priority_name, adjusted_priority := t.priority_name,
        environment := environment, was_downgraded := false,
        new_priority_id := t.priority_id }
  else
    { original_priority := t.priority_name, adjusted_priority := t.priority_name,
      environment := environment, was_downgraded := false,
      new_priority_id := t.priority_id }

/- ---------------------------------------------------------------------------
Workload prober (`get_user_workload`, devops_service.py lines 136-166).
Each of the three query strategies (`_get_workload_method_1/2/3`) is an
HTTP call that either raises (transport error or non-200 status) or returns
a definite integer count; it is modelled by its outcome
`Except String Nat`.  No strategy can return Python `None`: every path in
the three methods either raises or returns an `int`.
--------------------------------------------------------------------------- -/

/-- `get_user_workload(user_id)` given the outcomes of the three strategy
calls for that user: the first strategy whose call returns a count wins and
the rest are not consulted; if all three raise, the `for` loop falls
through and the function returns the sentinel `999`.  The surrounding
`try/except` absorbs every strategy exception, so the function itself
always returns an integer. -/
def get_user_workload (s1 s2 s3 : Except String Nat) : Nat :=
  match s1 with
  | .ok n => n
  | .error _ =>
    match s2 with
    | .ok n => n
    | .error _ =>
      match s3 with
      | .ok n => n
      | .error _ => 999

/-- Strategy outcomes for every user: the behavior of the workload source
as observed by the three methods. -/
def StrategyTable : Type := Nat → Except String Nat × Except String Nat × Except String Nat

/-- The workload probe as used by `find_best_assignee`:
`self.get_user_workload(user_id)` never raises, so the probe it induces is
always `.ok`. -/
def probeOf (tbl : StrategyTable) : Nat → Except String Nat :=
  fun u => .ok (get_user_workload (tbl u).1 (tbl u).2.1 (tbl u).2.2)

/- ---------------------------------------------------------------------------
Assignment routing (`find_best_assignee`, devops_service.py lines 221-274).
The probe argument abstracts `self.get_user_workload`; exceptions raised by
a probe call propagate exactly where the Python code lets them (the L1 loop
has no try/except, the two L2 selections do).
--------------------------------------------------------------------------- -/

/-- Python `min(members, key=lambda m: probe(m['user_id']))`: the key is
computed once per element in order, an exception aborts the whole `min`,
the first element attaining the minimal key wins, and `min` of an empty
list raises `ValueError`.  The accumulator carries the best member and its
already-computed key. -/
def minExceptByAux (probe : Nat → Except String Nat) (best : Member) (bestKey : Nat) :
    List Member → Except String Member
  | [] => .ok best
  | m :: ms =>
    match probe m.user_id with
    | .error e => .error e
    | .ok k =>
      if k < bestKey then minExceptByAux probe m k ms
      else minExceptByAux probe best bestKey ms

/-- See `minExceptByAux`. -/
def minExceptBy (probe : Nat → Except String Nat) : List Member → Except String Member
  | [] => .error "ValueError: min() arg is an empty sequence"
  | m :: ms =>
    match probe m.user_id with
    | .error e => .error e
    | .ok k => minExceptByAux probe m k ms

/-- The assignment dictionary built by `find_best_assignee`: the member
record possibly enriched (`{**member, 'assignment_type': ..., 'reason':
...}`).  The raw fallback `self.config.L2_MEMBERS[0]` has neither extra
key, modelled by `none`. -/
structure Assignee where
  member : Member
  assignment_type : Option String := none
  reason : Option String := none
deriving Repr, DecidableEq

/-- The `try` body of the `P1(Critical)` branch: select the least-loaded L2
member, probe it once more for the reason string, and enrich the record. -/
def selectL2Critical (probe : Nat → Except String Nat) (l2 : List Member) :
    Except String Assignee :=
  match minExceptBy probe l2 with
  | .error e => .error e
  | .ok best =>
    match probe best.user_id with
    | .error e => .error e
    | .ok w =>
      .ok { member := best, assignment_type := some "L2_CRITICAL_PROD",
            reason := some ("P1 Critical PRODUCTION issue - L2 team (24/7) - Current load: "
                             ++ toString w ++ " tickets") }

/-- The `try` body of the L1-saturated escalation branch. -/
def selectL2Backup (probe : Nat → Except String Nat) (l2 : List Member) :
    Except String Assignee :=
  match minExceptBy probe l2 with
  | .error e => .error e
  | .ok best =>
    match probe best.user_id with
    | .error e => .error e
    | .ok w =>
      .ok { member := best, assignment_type := some "L2_L1_OVERLOADED",
            reason := some ("L1 team at capacity (5+ tickets each) - Escalated to L2 - Load: "
                             ++ toString w) }

/-- The `for member in self.config.L1_MEMBERS` loop's probe phase: compute
every member's current load in order; a probe exception propagates (there
is no try/except around this loop). -/
def l1Loads (probe : Nat → Except String Nat) : List Member → Except String (List (Member × Nat))
  | [] => .ok []
  | m :: ms =>
    match probe m.user_id with
    | .error e => .error e
    | .ok w =>
      match l1Loads probe ms with
      | .error e => .error e
      | .ok rest => .ok ((m, w) :: rest)

/-- The availability filter `current_load < member['max_tickets']`
(config L1 members always carry the key; a record without it is never
available). -/
def l1AvailPred (q : Member × Nat) : Bool :=
  match q.1.max_tickets with
  | some cap => q.2 < cap
  | none => false

/-- Python `min(pairs, key=lambda x: x[1])` over a non-empty list of
(member, load) pairs: minimal load, first-in-order on ties. -/
def firstMinPair (best : Member × Nat) : List (Member × Nat) → Member × Nat
  | [] => best
  | p :: ps => if p.2 < best.2 then firstMinPair p ps else firstMinPair best ps

/-- `find_best_assignee(adjusted_priority, is_business_hours)`.
`Except.error` models an exception escaping the function; `.ok none`
models the Python `return None` (deferred); `.ok (some a)` models a
returned assignment dictionary. -/
def find_best_assignee (adjusted_priority : String) (is_business_hours : Bool)
    (probe : Nat → Except String Nat) (l1 l2 : List Member) :
    Except String (Option Assignee) :=
  if adjusted_priority == "P1(Critical)" then
    match selectL2Critical probe l2 with
    | .ok a => .ok (some a)
    | .error _ =>
      -- `except` branch: `return self.config.L2_MEMBERS[0]`, which itself
      -- raises IndexError when the pool is empty.
      match l2 with
      | [] => .error "IndexError: list index out of range"
      | m :: _ => .ok (some { member := m })
  else if is_business_hours then
    match l1Loads probe l1 with
    | .error e => .error e
    | .ok pairs =>
      match pairs.filter l1AvailPred with
      | p :: ps =>
        let best := firstMinPair p ps
        .ok (some { member := best.1, assignment_type := some "L1_BUSINESS_HOURS",
                    reason := some ("P2-P5 during business hours - L1 team - Load: "
                                     ++ toString best.2 ++ "/"
                                     ++ toString (best.1.max_tickets.getD 0)) })
      | [] =>
        match selectL2Backup probe l2 with
        | .ok a => .ok (some a)
        | .error _ =>
          match l2 with
          | [] => .error "IndexError: list index out of range"
          | m :: _ => .ok (some { member := m })
  else
    .ok none

/-- A probe that always answers (the shape of the real probe, since
`get_user_workload` swallows every strategy failure). -/
def okProbe (wl : Nat → Nat) : Nat → Except String Nat := fun u => .ok (wl u)

/-- Specification-side characterization of Python `min(..., key=...)`:
`r` belongs to the list, its key is minimal, and `r` is the first element
carrying its key (so ties are broken by order). -/
def isFirstMinBy (l : List (Member × Nat)) (r : Member × Nat) : Prop :=
  r ∈ l ∧ (∀ q ∈ l, r.2 ≤ q.2) ∧ l.find? (fun q => q.2 == r.2) = some r

/- ---------------------------------------------------------------------------
Analysis generation (`analyze_with_ollama` lines 276-348 and
`_generate_professional_fallback_analysis` lines 350-439; the leading
underscore of the fallback helper's Python name is dropped here).
--------------------------------------------------------------------------- -/

/-- Observable behavior of one `requests.post` call to the generation
backend: an HTTP reply carrying a status code and the `response` field of
its JSON body, a timeout, or any other transport/parsing error. -/
inductive OllamaOutcome where
  | reply (status : Nat) (responseField : String)
  | timeout
  | transportError (msg : String)
deriving Repr, DecidableEq

/-- The `if/elif` keyword cascade of the fallback generator: category and
diagnostic commands from the first keyword list that matches the combined
lowercased subject and description. -/
def categorize (combined : String) : String × List String :=
  if ["kubernetes", "k8s", "pod", "deployment", "namespace"].any (fun w => strContains combined w) then
    ("Kubernetes Infrastructure",
      ["kubectl get pods -n <namespace>",
       "kubectl describe pod <pod_name> -n <namespace>",
       "kubectl logs <pod_name> -n <namespace> --tail=100"])
  else if ["rabbitmq", "rabbit", "mq", "queue", "message"].any (fun w => strContains combined w) then
    ("RabbitMQ Message Broker",
      ["kubectl logs <rabbitmq-pod-name> --tail=100",
       "kubectl exec -it <rabbitmq-pod> -- rabbitmqctl status",
       "kubectl exec -it <rabbitmq-pod> -- rabbitmqctl list_queues"])
  else if ["redis", "cache", "session"].any (fun w => strContains combined w) then
    ("Redis Cache Service",
      ["kubectl logs <redis-pod-name> --tail=100",
       "kubectl exec -it <redis-pod> -- redis-cli ping",
       "kubectl exec -it <redis-pod> -- redis-cli info memory"])
  else if ["kafka", "streaming", "topic"].any (fun w => strContains combined w) then
    ("Kafka Streaming Platform",
      ["kubectl logs <kafka-pod-name> --tail=100",
       "kubectl exec -it <kafka-pod> -- kafka-topics --list"])
  else if ["elasticsearch", "elastic", "search"].any (fun w => strContains combined w) then
    ("Elasticsearch Search Engine",
      ["kubectl logs <elasticsearch-pod-name> --tail=100",
       "kubectl exec -it <es-pod> -- curl -X GET \x27localhost:9200/_cluster/health\x27"])
  else if ["gitlab", "ci/cd", "pipeline", "build"].any (fun w => strContains combined w) then
    ("GitLab CI/CD Pipeline",
      ["kubectl logs <gitlab-runner-pod> --tail=100",
       "kubectl get pods -l app=gitlab-runner"])
  else if ["database", "db", "sql", "mysql", "postgres"].any (fun w => strContains combined w) then
    ("Database Service",
      ["kubectl logs <database-pod-name> --tail=100",
       "kubectl describe pod <database-pod-name>"])
  else
    ("Infrastructure Service",
      ["kubectl get pods --all-namespaces",
       "kubectl get events --sort-by=.metadata.creationTimestamp"])

/-- The category/keyword lists of the fallback generator, in the priority
order in which the `if/elif` chain checks them (specification-side view). -/
def categoryKeywordTable : List (String × List String) :=
  [ ("Kubernetes Infrastructure", ["kubernetes", "k8s", "pod", "deployment", "namespace"]),
    ("RabbitMQ Message Broker", ["rabbitmq", "rabbit", "mq", "queue", "message"]),
    ("Redis Cache Service", ["redis", "cache", "session"]),
    ("Kafka Streaming Platform", ["kafka", "streaming", "topic"]),
    ("Elasticsearch Search Engine", ["elasticsearch", "elastic", "search"]),
    ("GitLab CI/CD Pipeline", ["gitlab", "ci/cd", "pipeline", "build"]),
    ("Database Service", ["database", "db", "sql", "mysql", "postgres"]) ]

/-- The first category of `categoryKeywordTable` whose keyword list matches
the combined text, defaulting to `Infrastructure Service`
(specification-side view of "fixed priority order, first match wins"). -/
def firstMatchingCategory (combined : String) : String :=
  match categoryKeywordTable.find? (fun c => c.2.any (fun w => strContains combined w)) with
  | some c => c.1
  | none => "Infrastructure Service"

/-- The combined text the fallback generator matches keywords against:
`ticket.get('subject','').lower() + ' ' + ticket.get('description','').lower()`. -/
def combinedText (t : Ticket) : String :=
  toLowerStr t.subject ++ " " ++ toLowerStr t.description

/-- `_generate_professional_fallback_analysis(ticket, environment,
priority)`: the deterministic category-driven template.  (The Python
source wraps the elasticsearch health-check URL in single quotes, written
`\x27` here.) -/
def generate_professional_fallback_analysis (t : Ticket) (environment _priority : String) :
    String :=
  let combined := combinedText t
  let category := (categorize combined).1
  let commands := (categorize combined).2
  let env_context :=
    if environment == "" then ""
    else " in the " ++ toUpperStr environment ++ " environment"
  "Thank you for contacting 6D DevOps Support regarding this "
    ++ toLowerStr category ++ " issue" ++ env_context
    ++ ".\n\n**Initial Assessment:**\nThis appears to be a " ++ category
    ++ " issue that requires additional information for proper diagnosis and resolution.\n\n**To assist in resolving this issue efficiently, please provide the following information:**\n\n1. **Error Details:** Please provide any error messages, logs, or specific symptoms observed.\n2. **Recent Changes:** Were there any recent deployments, configuration changes, or updates?\n3. **Issue Description: \n\n**Diagnostic Commands:**\nPlease run the following commands and provide the output:\n\n```\n"
    ++ String.intercalate "\n" commands
    ++ "\n```\n\n**Next Steps:**\nOnce we receive this information, our team will perform a comprehensive analysis and provide specific resolution steps. This structured approach ensures efficient problem resolution.\n\n*Note: This response was generated by our automated triage system. Our AI analysis service will provide enhanced diagnostics once connectivity is restored.*"

/-- `analyze_with_ollama(ticket, environment, priority)` given the
backend's behavior: a 200 reply whose `response` field is non-empty after
stripping is returned stripped; every other behavior (empty or
whitespace-only reply, non-200 status, timeout, transport error) falls
through to the deterministic fallback.  The `try/except` around the call
means no backend failure ever escapes. -/
def analyze_with_ollama (outcome : OllamaOutcome) (t : Ticket)
    (environment priority : String) : String :=
  match outcome with
  | .reply status responseField =>
    if status == 200 then
      let analysis := trimStr responseField
      if analysis == "" then generate_professional_fallback_analysis t environment priority
      else analysis
    else generate_professional_fallback_analysis t environment priority
  | .timeout => generate_professional_fallback_analysis t environment priority
  | .transportError _ => generate_professional_fallback_analysis t environment priority

/-- Does this backend behavior count as a failure (anything but a 200 reply
that is non-empty after stripping)? -/
def backendFailed (outcome : OllamaOutcome) : Bool :=
  match outcome with
  | .reply status responseField => status != 200 || trimStr responseField == ""
  | .timeout => true
  | .transportError _ => true

/- ---------------------------------------------------------------------------
Pipeline (`process_tickets`, devops_service.py lines 519-635, and
`get_new_devops_tickets` lines 39-93).  The external collaborators are
modelled by a `PipelineEnv`: the fetch outcome, the operating-hours flag,
the workload probe, the generation backend's behavior per ticket, and
whether the Redmine persistence calls succeed.  `add_priority_downgrade_note`
and `assign_ticket_in_redmine` catch all of their own exceptions and
return a boolean, so only that boolean is modelled.
--------------------------------------------------------------------------- -/

/-- The per-ticket record (`models.ProcessedTicket`); the nested
`TicketAssignment` is flattened into the three `assigned_to_*` fields and
the wall-clock timestamp is omitted. -/
structure ProcessedTicket where
  ticket_id : Nat
  subject : String
  original_priority : String
  adjusted_priority : String
  environment : String
  priority_downgraded : Bool
  assigned_to_user_id : Nat
  assigned_to_name : String
  assigned_to_max_tickets : Option Nat
  assignment_type : String
  reason : String
  ai_analysis : String
  ai_analysis_short : String
  redmine_url : String
  success : Bool
  error : Option String := none
deriving Repr, DecidableEq

/-- The run summary (`models.AutomationResponse`, timestamp omitted). -/
structure AutomationResponse where
  success : Bool
  processed_tickets : List ProcessedTicket
  total_processed : Nat
  priority_adjustments : Nat
  ollama_analyses : Nat
  errors : List String
deriving Repr, DecidableEq

/-- The mutable locals of the `process_tickets` loop. -/
structure LoopState where
  processed_tickets : List ProcessedTicket := []
  errors : List String := []
  priority_adjustments : Nat := 0
  ollama_analyses : Nat := 0
deriving Repr, DecidableEq

/-- Behavior of the external collaborators during one run. -/
structure PipelineEnv where
  hours : Bool
  probe : Nat → Except String Nat
  l1 : List Member
  l2 : List Member
  gen : Ticket → OllamaOutcome
  assignOk : Ticket → Bool

/-- `get_new_devops_tickets()`: the `try/except` swallows every fetch
error and returns the empty list. -/
def get_new_devops_tickets (fetchResult : Except String (List Ticket)) : List Ticket :=
  match fetchResult with
  | .ok tickets => tickets
  | .error _ => []

/-- The deferred record appended for a ticket outside business hours
(`process_tickets` step 4, lines 560-574): placeholder pending assignee,
no analysis generated. -/
def pendingTicketRecord (t : Ticket) (r : ArbitrationResult) : ProcessedTicket :=
  { ticket_id := t.id, subject := t.subject,
    original_priority := r.original_priority, adjusted_priority := r.adjusted_priority,
    environment := r.environment, priority_downgraded := r.was_downgraded,
    assigned_to_user_id := 0, assigned_to_name := "Pending",
    assigned_to_max_tickets := none,
    assignment_type := "OUTSIDE_HOURS",
    reason := "Non-critical ticket outside business hours (9AM-9PM IST)",
    ai_analysis := "Waiting for business hours",
    ai_analysis_short := "Pending business hours",
    redmine_url := REDMINE_BASE_URL ++ "/issues/" ++ toString t.id,
    success := true, error := none }

/-- The body of `for ticket in tickets` in `process_tickets` (lines
544-609), including its `try/except`: arbitration, optional downgrade
note, routing, analysis, persistence, and the per-ticket error handler.
Any exception (a routing exception, or the `KeyError` raised when reading
`assignee['assignment_type']` off the raw fallback record) lands in the
error list and the loop moves on. -/
def processTicketStep (env : PipelineEnv) (st : LoopState) (t : Ticket) : LoopState :=
  let r := analyze_priority_and_environment t
  let adj := st.priority_adjustments + (if r.was_downgraded then 1 else 0)
  -- `add_priority_downgrade_note` catches internally; its boolean result is unused
  match find_best_assignee r.adjusted_priority env.hours env.probe env.l1 env.l2 with
  | .error e =>
    { st with priority_adjustments := adj,
              errors := st.errors ++ ["Error processing ticket #" ++ toString t.id ++ ": " ++ e] }
  | .ok none =>
    { st with priority_adjustments := adj,
              processed_tickets := st.processed_tickets ++ [pendingTicketRecord t r] }
  | .ok (some a) =>
    let ai := analyze_with_ollama (env.gen t) t r.environment r.adjusted_priority
    let ana := st.ollama_analyses + 1
    let ok := env.assignOk t
    match a.assignment_type, a.reason with
    | some atype, some reason =>
      { st with priority_adjustments := adj, ollama_analyses := ana,
                processed_tickets := st.processed_tickets ++
                  [{ ticket_id := t.id, subject := t.subject,
                     original_priority := r.original_priority,
                     adjusted_priority := r.adjusted_priority,
                     environment := r.environment, priority_downgraded := r.was_downgraded,
                     assigned_to_user_id := a.member.user_id,
                     assigned_to_name := a.member.name,
                     assigned_to_max_tickets := a.member.max_tickets,
                     assignment_type := atype, reason := reason,
                     ai_analysis := ai,
                     ai_analysis_short := "AI analysis with SPOC assignment",
                     redmine_url := REDMINE_BASE_URL ++ "/issues/" ++ toString t.id,
                     success := ok,
                     error := if ok then none else some "Failed to assign in Redmine" }] }
    | _, _ =>
      { st with priority_adjustments := adj, ollama_analyses := ana,
                errors := st.errors ++
                  ["Error processing ticket #" ++ toString t.id ++ ": \x27assignment_type\x27"] }

/-- `process_tickets()`: the whole pipeline for one run.  A fetch failure
was already converted to `[]` by `get_new_devops_tickets`, so the
empty-batch early return fires with `success=True` and the note
`"No new tickets found"`; otherwise the loop runs over every ticket and
the summary is assembled with `success=True` (the outer `except` that
would report `success=False` is unreachable for the behaviors modelled
here, since every per-ticket exception is caught inside the loop). -/
def process_tickets (fetchResult : Except String (List Ticket)) (env : PipelineEnv) :
    AutomationResponse :=
  let tickets := get_new_devops_tickets fetchResult
  if tickets.isEmpty then
    { success := true, processed_tickets := [], total_processed := 0,
      priority_adjustments := 0, ollama_analyses := 0,
      errors := ["No new tickets found"] }
  else
    let final := tickets.foldl (processTicketStep env) {}
    { success := true,
      processed_tickets := final.processed_tickets,
      total_processed := final.processed_tickets.length,
      priority_adjustments := final.priority_adjustments,
      ollama_analyses := final.ollama_analyses,
      errors := final.errors }

/- ---------------------------------------------------------------------------
Theorems for C1 and C9.
--------------------------------------------------------------------------- -/

/-- Claim C1: for every ticket, if the declared urgency is `P1(Critical)`
and the normalized environment tag matches a production alias the adjusted
urgency is `P1(Critical)` with no downgrade; if it is `P1(Critical)` and
the tag matches no alias (in particular when the tag is empty or missing)
the adjusted urgency is exactly one step lower, `P2(High)` with priority
id 5, and `was_downgraded` is true; and every urgency below Critical passes
through unchanged with no downgrade, regardless of environment. -/
theorem priority_arbitration_cases (t : Ticket) :
    (t.priority_name = "P1(Critical)" →
      (isProductionTag (normalizedEnvTag t) = true →
        (analyze_priority_and_environment t).adjusted_priority = "P1(Critical)" ∧
        (analyze_priority_and_environment t).was_downgraded = false) ∧
      (isProductionTag (normalizedEnvTag t) = false →
        (analyze_priority_and_environment t).adjusted_priority = "P2(High)" ∧
        (analyze_priority_and_environment t).was_downgraded = true ∧
        (analyze_priority_and_environment t).new_priority_id = 5) ∧
      (normalizedEnvTag t = "" →
        (analyze_priority_and_environment t).adjusted_priority = "P2(High)" ∧
        (analyze_priority_and_environment t).was_downgraded = true)) ∧
    (t.priority_name ≠ "P1(Critical)" →
      (analyze_priority_and_environment t).adjusted_priority = t.priority_name ∧
      (analyze_priority_and_environment t).was_downgraded = false) := by
  constructor
  · intro hp
    refine ⟨?_, ?_, ?_⟩
    · intro hprod
      simp [analyze_priority_and_environment, hp, hprod]
    · intro hnp
      simp [analyze_priority_and_environment, hp, hnp, priorityIdOf, PRIORITY_IDS]
    · intro hempty
      have hnp : isProductionTag (normalizedEnvTag t) = false := by
        rw [hempty]; decide
      simp [analyze_priority_and_environment, hp, hnp, priorityIdOf, PRIORITY_IDS]
  · intro hp
    have hb : (t.priority_name == "P1(Critical)") = false := by
      simpa using hp
    simp [analyze_priority_and_environment, hb]

/-- Witness for C1: the theorem applied to three concrete tickets covering
the production, non-production and below-Critical cases. -/
theorem priority_arbitration_cases_witness :
    (analyze_priority_and_environment
        ⟨99991, "db down", "prod db down", "P1(Critical)", 4,
         [⟨"Deployment Environment Tags", "Prod "⟩]⟩).adjusted_priority = "P1(Critical)" ∧
    (analyze_priority_and_environment
        ⟨99992, "ci broken", "dev pipeline", "P1(Critical)", 4,
         [⟨"Deployment Environment Tags", "dev"⟩]⟩).adjusted_priority = "P2(High)" ∧
    (analyze_priority_and_environment
        ⟨99993, "slow query", "medium issue", "P3(Medium)", 3, []⟩).adjusted_priority
      = "P3(Medium)" := by
  refine ⟨?_, ?_, ?_⟩
  · exact ((priority_arbitration_cases _).1 rfl).1 (by decide) |>.1
  · exact ((priority_arbitration_cases _).1 rfl).2.1 (by decide) |>.1
  · exact ((priority_arbitration_cases _).2 (by decide)).1

/-- Claim C9: production classification is a substring test, so a Critical
ticket whose tag merely contains an alias inside a longer word (such as
`nonprod` or `reproduction`, both containing `prod`) is classified as
production, keeps `P1(Critical)`, and is not downgraded. -/
theorem substring_production_classification (t : Ticket) :
    t.priority_name = "P1(Critical)" →
    strContains (normalizedEnvTag t) "prod" = true →
    isProductionTag (normalizedEnvTag t) = true ∧
    (analyze_priority_and_environment t).adjusted_priority = "P1(Critical)" ∧
    (analyze_priority_and_environment t).was_downgraded = false := by
  intro hp hsub
  have hprod : isProductionTag (normalizedEnvTag t) = true := by
    simp [isProductionTag, CRITICAL_ENVIRONMENTS]
    exact Or.inl hsub
  exact ⟨hprod, ((priority_arbitration_cases t).1 hp).1 hprod⟩

/-- Witness for C9: concrete Critical tickets tagged `nonprod` and
`reproduction` both stay Critical and undowngraded. -/
theorem substring_production_classification_witness :
    (analyze_priority_and_environment
        ⟨1, "x", "y", "P1(Critical)", 4,
         [⟨"Deployment Environment Tags", "nonprod"⟩]⟩).was_downgraded = false ∧
    (analyze_priority_and_environment
        ⟨2, "x", "y", "P1(Critical)", 4,
         [⟨"Deployment Environment Tags", "reproduction"⟩]⟩).was_downgraded = false := by
  constructor
  · exact (substring_production_classification _ rfl (by decide)).2.2
  · exact (substring_production_classification _ rfl (by decide)).2.2


/- ---------------------------------------------------------------------------
Lemmas about the selection machinery (Python `min(..., key=...)`).
--------------------------------------------------------------------------- -/

theorem firstMinPair_mem : ∀ (l : List (Member × Nat)) (p : Member × Nat),
    firstMinPair p l ∈ p :: l := by
  intro l
  induction l with
  | nil => intro p; simp [firstMinPair]
  | cons q qs ih =>
    intro p
    simp only [firstMinPair]
    split
    · exact List.mem_cons_of_mem p (ih q)
    · rcases List.mem_cons.1 (ih p) with h | h
      · simp [h]
      · simp [List.mem_cons, h]

theorem firstMinPair_le : ∀ (l : List (Member × Nat)) (p : Member × Nat),
    ∀ q ∈ p :: l, (firstMinPair p l).2 ≤ q.2 := by
  intro l
  induction l with
  | nil =>
    intro p q hq
    have h : q = p := by simpa using hq
    subst h
    simp [firstMinPair]
  | cons x xs ih =>
    intro p q hq
    simp only [firstMinPair]
    split
    · -- x.2 < p.2, result is firstMinPair x xs
      rcases List.mem_cons.1 hq with h | hq'
      · subst h
        have := ih x x (List.mem_cons_self x xs)
        omega
      · exact ih x q hq'
    · -- ¬ x.2 < p.2, result is firstMinPair p xs
      rcases List.mem_cons.1 hq with h | hq'
      · subst h
        exact ih q q (List.mem_cons_self q xs)
      · rcases List.mem_cons.1 hq' with h | hq''
        · subst h
          have := ih p p (List.mem_cons_self p xs)
          omega
        · exact ih p q (List.mem_cons_of_mem p hq'')

theorem firstMinPair_eq_or_lt : ∀ (l : List (Member × Nat)) (p : Member × Nat),
    firstMinPair p l = p ∨ (firstMinPair p l).2 < p.2 := by
  intro l
  induction l with
  | nil => intro p; exact Or.inl rfl
  | cons x xs ih =>
    intro p
    simp only [firstMinPair]
    split
    · rcases ih x with heq | hlt
      · rw [heq]; omega
      · omega
    · exact ih p

theorem firstMinPair_find : ∀ (l : List (Member × Nat)) (p : Member × Nat),
    (p :: l).find? (fun q => q.2 == (firstMinPair p l).2) = some (firstMinPair p l) := by
  intro l
  induction l with
  | nil =>
    intro p
    simp [firstMinPair]
  | cons x xs ih =>
    intro p
    by_cases hlt : x.2 < p.2
    · have hr : firstMinPair p (x :: xs) = firstMinPair x xs := by
        simp [firstMinPair, hlt]
      rw [hr]
      have hle : (firstMinPair x xs).2 ≤ x.2 := firstMinPair_le xs x x (List.mem_cons_self x xs)
      have e1 : List.find? (fun q : Member × Nat => q.2 == (firstMinPair x xs).2) (p :: x :: xs)
          = List.find? (fun q : Member × Nat => q.2 == (firstMinPair x xs).2) (x :: xs) :=
        @List.find?_cons_of_neg _ _ p (x :: xs) (by simp only [beq_iff_eq]; omega)
      rw [e1]
      exact ih x
    · have hr : firstMinPair p (x :: xs) = firstMinPair p xs := by
        simp [firstMinPair, hlt]
      rw [hr]
      rcases firstMinPair_eq_or_lt xs p with heq | hlt2
      · rw [heq]
        exact List.find?_cons_of_pos _ (by simp)
      · have e1 : List.find? (fun q : Member × Nat => q.2 == (firstMinPair p xs).2) (p :: x :: xs)
            = List.find? (fun q : Member × Nat => q.2 == (firstMinPair p xs).2) (x :: xs) :=
          @List.find?_cons_of_neg _ _ p (x :: xs) (by simp only [beq_iff_eq]; omega)
        have e2 : List.find? (fun q : Member × Nat => q.2 == (firstMinPair p xs).2) (x :: xs)
            = List.find? (fun q : Member × Nat => q.2 == (firstMinPair p xs).2) xs :=
          @List.find?_cons_of_neg _ _ x xs (by simp only [beq_iff_eq]; omega)
        have e3 : List.find? (fun q : Member × Nat => q.2 == (firstMinPair p xs).2) (p :: xs)
            = List.find? (fun q : Member × Nat => q.2 == (firstMinPair p xs).2) xs :=
          @List.find?_cons_of_neg _ _ p xs (by simp only [beq_iff_eq]; omega)
        rw [e1, e2]
        have h := ih p
        rwa [e3] at h

theorem firstMinPair_isFirstMinBy (l : List (Member × Nat)) (p : Member × Nat) :
    isFirstMinBy (p :: l) (firstMinPair p l) :=
  ⟨firstMinPair_mem l p, firstMinPair_le l p, firstMinPair_find l p⟩

theorem mem_mapPairs_snd (wl : Nat → Nat) (l : List Member) :
    ∀ q ∈ l.map (fun m => (m, wl m.user_id)), q.2 = wl q.1.user_id := by
  intro q hq
  rcases List.mem_map.1 hq with ⟨x, _, rfl⟩
  rfl

theorem minExceptByAux_okProbe (wl : Nat → Nat) :
    ∀ (l : List Member) (best : Member) (k : Nat),
      minExceptByAux (okProbe wl) best k l
        = .ok (firstMinPair (best, k) (l.map fun m => (m, wl m.user_id))).1 := by
  intro l
  induction l with
  | nil => intro best k; simp [minExceptByAux, firstMinPair]
  | cons m ms ih =>
    intro m0 k
    simp only [minExceptByAux, okProbe, List.map_cons, firstMinPair]
    split
    · exact ih m (wl m.user_id)
    · exact ih m0 k

theorem minExceptBy_okProbe (wl : Nat → Nat) (m : Member) (ms : List Member) :
    minExceptBy (okProbe wl) (m :: ms)
      = .ok (firstMinPair (m, wl m.user_id) (ms.map fun x => (x, wl x.user_id))).1 := by
  simp only [minExceptBy, okProbe]
  exact minExceptByAux_okProbe wl ms m (wl m.user_id)

theorem minExceptByAux_mem (probe : Nat → Except String Nat) :
    ∀ (l : List Member) (best : Member) (k : Nat) (x : Member),
      minExceptByAux probe best k l = .ok x → x = best ∨ x ∈ l := by
  intro l
  induction l with
  | nil =>
    intro best k x h
    simp only [minExceptByAux, Except.ok.injEq] at h
    exact Or.inl h.symm
  | cons m ms ih =>
    intro best k x h
    cases hp : probe m.user_id with
    | error e =>
      simp only [minExceptByAux, hp] at h
      exact absurd h (by simp)
    | ok k2 =>
      simp only [minExceptByAux, hp] at h
      split at h
      · rcases ih m k2 x h with rfl | hx
        · exact Or.inr (List.mem_cons_self _ _)
        · exact Or.inr (List.mem_cons_of_mem _ hx)
      · rcases ih best k x h with rfl | hx
        · exact Or.inl rfl
        · exact Or.inr (List.mem_cons_of_mem _ hx)

theorem minExceptBy_mem (probe : Nat → Except String Nat) (l : List Member) (x : Member)
    (h : minExceptBy probe l = .ok x) : x ∈ l := by
  cases l with
  | nil => cases h
  | cons m ms =>
    cases hp : probe m.user_id with
    | error e =>
      simp only [minExceptBy, hp] at h
      exact absurd h (by simp)
    | ok k =>
      simp only [minExceptBy, hp] at h
      rcases minExceptByAux_mem probe ms m k x h with rfl | hx
      · exact List.mem_cons_self _ _
      · exact List.mem_cons_of_mem _ hx

theorem l1Loads_okProbe (wl : Nat → Nat) :
    ∀ l : List Member, l1Loads (okProbe wl) l = .ok (l.map fun m => (m, wl m.user_id)) := by
  intro l
  induction l with
  | nil => rfl
  | cons m ms ih =>
    simp [l1Loads, okProbe, ih]

/- ---------------------------------------------------------------------------
Evaluation lemmas for the two L2 selection paths under a never-raising
probe.
--------------------------------------------------------------------------- -/

theorem selectL2Critical_okProbe (wl : Nat → Nat) (m : Member) (rest : List Member) :
    selectL2Critical (okProbe wl) (m :: rest)
      = .ok { member := (firstMinPair (m, wl m.user_id) (rest.map fun x => (x, wl x.user_id))).1,
              assignment_type := some "L2_CRITICAL_PROD",
              reason := some ("P1 Critical PRODUCTION issue - L2 team (24/7) - Current load: "
                ++ toString (wl (firstMinPair (m, wl m.user_id)
                      (rest.map fun x => (x, wl x.user_id))).1.user_id)
                ++ " tickets") } := by
  simp [selectL2Critical, minExceptBy_okProbe wl m rest, okProbe]

theorem selectL2Backup_okProbe (wl : Nat → Nat) (m : Member) (rest : List Member) :
    selectL2Backup (okProbe wl) (m :: rest)
      = .ok { member := (firstMinPair (m, wl m.user_id) (rest.map fun x => (x, wl x.user_id))).1,
              assignment_type := some "L2_L1_OVERLOADED",
              reason := some ("L1 team at capacity (5+ tickets each) - Escalated to L2 - Load: "
                ++ toString (wl (firstMinPair (m, wl m.user_id)
                      (rest.map fun x => (x, wl x.user_id))).1.user_id)) } := by
  simp [selectL2Backup, minExceptBy_okProbe wl m rest, okProbe]

/- ---------------------------------------------------------------------------
Claim C3.
--------------------------------------------------------------------------- -/

/-- Claim C3 (amended): `get_user_workload` never raises to its caller (the
probe it induces always answers with `.ok`), it returns the sentinel `999`
whenever all three strategies fail, and when any strategy succeeds it
returns the value of the first succeeding strategy in configured order,
short-circuiting the remaining strategies.  The unqualified "only if"
direction of the original claim is refuted by
`workload_sentinel_iff_counterexample`: the first succeeding strategy may
itself report the count 999. -/
theorem workload_prober_fallback_chain :
    (∀ e1 e2 e3 : String, get_user_workload (.error e1) (.error e2) (.error e3) = 999) ∧
    (∀ (n : Nat) (s2 s3 : Except String Nat), get_user_workload (.ok n) s2 s3 = n) ∧
    (∀ (e1 : String) (n : Nat) (s3 : Except String Nat),
      get_user_workload (.error e1) (.ok n) s3 = n) ∧
    (∀ (e1 e2 : String) (n : Nat), get_user_workload (.error e1) (.error e2) (.ok n) = n) ∧
    (∀ (tbl : StrategyTable) (u : Nat),
      probeOf tbl u = .ok (get_user_workload (tbl u).1 (tbl u).2.1 (tbl u).2.2)) :=
  ⟨fun _ _ _ => rfl, fun _ _ _ => rfl, fun _ _ _ => rfl, fun _ _ _ => rfl, fun _ _ => rfl⟩

/-- Counterexample to claim C3 as stated: the claim's "returns 999 if and
only if all three strategies fail" is false, because a strategy can
succeed with the count 999 (method 1 returns the backend's unbounded
`total_count`), in which case the function returns 999 although the first
strategy succeeded. -/
theorem workload_sentinel_iff_counterexample :
    ¬ (∀ s1 s2 s3 : Except String Nat,
        get_user_workload s1 s2 s3 = 999 ↔
          ((∃ e, s1 = .error e) ∧ (∃ e, s2 = .error e) ∧ (∃ e, s3 = .error e))) := by
  intro hall
  have h := (hall (.ok 999) (.error "HTTP 500") (.error "HTTP 500")).1 rfl
  rcases h.1 with ⟨e, he⟩
  exact absurd he (by simp)

/- ---------------------------------------------------------------------------
Claim C2.
--------------------------------------------------------------------------- -/

/-- Claim C2 (amended): for adjusted urgency `P1(Critical)`, every value of
the operating-hours flag and a non-empty Tier2 pool, routing under the
real never-raising probe returns an assignment (never a deferral) to the
Tier2 responder with minimum probed active count, ties broken by first-in
configured order, with assignment type `L2_CRITICAL_PROD`; and even under
an arbitrary possibly-raising probe a non-empty pool always yields an
assignment to some pool member.  The original claim's assertion that an
empty Tier2 pool still falls back to "the first configured Tier2
responder" is refuted by `critical_routing_empty_pool_counterexample`. -/
theorem critical_routing_assigns_l2 (hrs : Bool) (wl : Nat → Nat)
    (l1 : List Member) (m : Member) (rest : List Member) :
    (find_best_assignee "P1(Critical)" hrs (okProbe wl) l1 (m :: rest)
        = .ok (some
            { member := (firstMinPair (m, wl m.user_id) (rest.map fun x => (x, wl x.user_id))).1,
              assignment_type := some "L2_CRITICAL_PROD",
              reason := some ("P1 Critical PRODUCTION issue - L2 team (24/7) - Current load: "
                ++ toString (wl (firstMinPair (m, wl m.user_id)
                      (rest.map fun x => (x, wl x.user_id))).1.user_id)
                ++ " tickets") }) ∧
      isFirstMinBy ((m :: rest).map fun x => (x, wl x.user_id))
        (firstMinPair (m, wl m.user_id) (rest.map fun x => (x, wl x.user_id)))) ∧
    (∀ probe : Nat → Except String Nat, ∃ a : Assignee,
      find_best_assignee "P1(Critical)" hrs probe l1 (m :: rest) = .ok (some a) ∧
      a.member ∈ m :: rest) := by
  constructor
  · constructor
    · simp [find_best_assignee, selectL2Critical_okProbe wl m rest]
    · have h := firstMinPair_isFirstMinBy (rest.map fun x => (x, wl x.user_id)) (m, wl m.user_id)
      simpa using h
  · intro probe
    cases hsel : selectL2Critical probe (m :: rest) with
    | ok a =>
      refine ⟨a, ?_, ?_⟩
      · simp [find_best_assignee, hsel]
      · simp only [selectL2Critical] at hsel
        cases hmin : minExceptBy probe (m :: rest) with
        | error e =>
          simp only [hmin] at hsel
          exact absurd hsel (by simp)
        | ok best =>
          simp only [hmin] at hsel
          cases hw : probe best.user_id with
          | error e =>
            simp only [hw] at hsel
            exact absurd hsel (by simp)
          | ok w =>
            simp only [hw, Except.ok.injEq] at hsel
            rw [← hsel]
            exact minExceptBy_mem probe _ best hmin
    | error e =>
      refine ⟨{ member := m }, ?_, List.mem_cons_self _ _⟩
      simp [find_best_assignee, hsel]

/-- Counterexample to claim C2 as stated: with an empty Tier2 pool the
critical branch's fallback `self.config.L2_MEMBERS[0]` raises IndexError
instead of producing an assignment, so the ticket is not routed. -/
theorem critical_routing_empty_pool_counterexample :
    find_best_assignee "P1(Critical)" true (okProbe (fun _ => 0)) L1_MEMBERS []
      = .error "IndexError: list index out of range" := rfl

/- ---------------------------------------------------------------------------
Claim C4.
--------------------------------------------------------------------------- -/

/-- Claim C4: for every adjusted urgency below Critical during operating
hours, the L1 filter keeps exactly the responders whose probed load is
strictly below their capacity (load equal to capacity is excluded, and for
the configured roster — every capacity is 5 — the sentinel load 999 never
passes); if any remain the least-loaded one is assigned (ties first-in
configured order) as `L1_BUSINESS_HOURS`; if none remain the ticket
escalates to the least-loaded Tier2 responder as `L2_L1_OVERLOADED` with
the Tier1-saturation rationale. -/
theorem business_hours_routing (p : String) (wl : Nat → Nat) (l1 l2 : List Member)
    (hp : p ≠ "P1(Critical)") :
    ((∀ (m : Member) (load : Nat),
        (m, load) ∈ (l1.map fun x => (x, wl x.user_id)).filter l1AvailPred ↔
          (m ∈ l1 ∧ load = wl m.user_id ∧ ∃ cap, m.max_tickets = some cap ∧ load < cap)) ∧
     (l1 = L1_MEMBERS →
        ∀ q ∈ (l1.map fun x => (x, wl x.user_id)).filter l1AvailPred, q.2 ≠ 999)) ∧
    (∀ q qs, (l1.map fun x => (x, wl x.user_id)).filter l1AvailPred = q :: qs →
       find_best_assignee p true (okProbe wl) l1 l2
         = .ok (some { member := (firstMinPair q qs).1,
                       assignment_type := some "L1_BUSINESS_HOURS",
                       reason := some ("P2-P5 during business hours - L1 team - Load: "
                         ++ toString (firstMinPair q qs).2 ++ "/"
                         ++ toString ((firstMinPair q qs).1.max_tickets.getD 0)) }) ∧
       isFirstMinBy (q :: qs) (firstMinPair q qs)) ∧
    ((l1.map fun x => (x, wl x.user_id)).filter l1AvailPred = [] →
       ∀ m rest, l2 = m :: rest →
         find_best_assignee p true (okProbe wl) l1 l2
           = .ok (some { member := (firstMinPair (m, wl m.user_id)
                           (rest.map fun x => (x, wl x.user_id))).1,
                         assignment_type := some "L2_L1_OVERLOADED",
                         reason := some ("L1 team at capacity (5+ tickets each) - Escalated to L2 - Load: "
                           ++ toString (wl (firstMinPair (m, wl m.user_id)
                                 (rest.map fun x => (x, wl x.user_id))).1.user_id)) }) ∧
         isFirstMinBy (l2.map fun x => (x, wl x.user_id))
           (firstMinPair (m, wl m.user_id) (rest.map fun x => (x, wl x.user_id)))) := by
  have hb : (p == "P1(Critical)") = false := by simpa using hp
  refine ⟨⟨?_, ?_⟩, ?_, ?_⟩
  · -- membership characterization of the availability filter
    intro m load
    constructor
    · intro hmem
      have h := List.mem_filter.1 hmem
      rcases List.mem_map.1 h.1 with ⟨x, hx, heq⟩
      have hx1 : x = m := congrArg Prod.fst heq
      subst hx1
      have hx2 : wl x.user_id = load := congrArg Prod.snd heq
      have hpred := h.2
      refine ⟨hx, hx2.symm, ?_⟩
      cases hmt : x.max_tickets with
      | none =>
        simp only [l1AvailPred, hmt] at hpred
        exact absurd hpred (by simp)
      | some cap =>
        simp only [l1AvailPred, hmt] at hpred
        exact ⟨cap, rfl, by simpa using hpred⟩
    · rintro ⟨hm, hload, cap, hcap, hlt⟩
      subst hload
      refine List.mem_filter.2 ⟨List.mem_map.2 ⟨m, hm, rfl⟩, ?_⟩
      simp only [l1AvailPred, hcap]
      simpa using hlt
  · -- the sentinel 999 never passes the filter for the configured roster
    intro hl1
    subst hl1
    intro q hq
    have h := List.mem_filter.1 hq
    rcases List.mem_map.1 h.1 with ⟨x, hx, heq⟩
    have hcap : x.max_tickets = some 5 := by
      have hall : ∀ m ∈ L1_MEMBERS, m.max_tickets = some 5 := by decide
      exact hall x hx
    have hpred := h.2
    subst heq
    simp only [l1AvailPred, hcap] at hpred
    have : wl x.user_id < 5 := by simpa using hpred
    omega
  · -- some L1 responder available
    intro q qs hfilter
    constructor
    · simp [find_best_assignee, hb, l1Loads_okProbe wl l1, hfilter]
    · exact firstMinPair_isFirstMinBy qs q
  · -- all L1 at or over capacity: escalate to Tier2
    intro hfilter m rest hl2
    subst hl2
    constructor
    · simp [find_best_assignee, hb, l1Loads_okProbe wl l1, hfilter,
            selectL2Backup_okProbe wl m rest]
    · have h := firstMinPair_isFirstMinBy (rest.map fun x => (x, wl x.user_id)) (m, wl m.user_id)
      simpa using h

/-- Witness for C4: under a concrete workload table where only user 1329
is below capacity, a `P2(High)` ticket during operating hours is assigned
to that responder with the capacity rationale; and under a table where
everyone is at or over capacity, the ticket escalates to the least-loaded
Tier2 responder. -/
theorem business_hours_routing_witness :
    find_best_assignee "P2(High)" true (okProbe (fun u => if u == 1329 then 0 else 6))
        L1_MEMBERS L2_MEMBERS
      = .ok (some { member := ⟨1329, "Lakshmi A B", some 5⟩,
                    assignment_type := some "L1_BUSINESS_HOURS",
                    reason := some "P2-P5 during business hours - L1 team - Load: 0/5" }) ∧
    find_best_assignee "P2(High)" true (okProbe (fun u => if u == 11 then 1 else 6))
        L1_MEMBERS L2_MEMBERS
      = .ok (some { member := ⟨11, "Jerish Vijay", none⟩,
                    assignment_type := some "L2_L1_OVERLOADED",
                    reason := some "L1 team at capacity (5+ tickets each) - Escalated to L2 - Load: 1" }) := by
  constructor
  · have h := (business_hours_routing "P2(High)" (fun u => if u == 1329 then 0 else 6)
        L1_MEMBERS L2_MEMBERS (by decide)).2.1
        (⟨1329, "Lakshmi A B", some 5⟩, 0) [] (by decide)
    exact h.1
  · have h := (business_hours_routing "P2(High)" (fun u => if u == 11 then 1 else 6)
        L1_MEMBERS L2_MEMBERS (by decide)).2.2 (by decide)
        ⟨21, "Arun Ramdas", none⟩ [⟨155, "Manoja Ningaraja", none⟩,
          ⟨11, "Jerish Vijay", none⟩, ⟨10, "Angel Varghese", none⟩] rfl
    exact h.1

/- ---------------------------------------------------------------------------
Claim C5.
--------------------------------------------------------------------------- -/

/-- Claim C5: for every adjusted urgency below Critical outside operating
hours, routing defers (`return None`) for every probe and every roster;
and the pipeline then records the ticket with the placeholder pending
assignee.  The right-hand sides mention neither the probe nor the
generation backend, so no workload is probed and the analysis generator is
not invoked for such a ticket. -/
theorem outside_hours_deferral :
    (∀ (p : String) (probe : Nat → Except String Nat) (l1 l2 : List Member),
       p ≠ "P1(Critical)" → find_best_assignee p false probe l1 l2 = .ok none) ∧
    (∀ (env : PipelineEnv) (st : LoopState) (t : Ticket),
       env.hours = false →
       (analyze_priority_and_environment t).adjusted_priority ≠ "P1(Critical)" →
       processTicketStep env st t
         = { st with
             priority_adjustments := st.priority_adjustments +
               (if (analyze_priority_and_environment t).was_downgraded then 1 else 0),
             processed_tickets := st.processed_tickets
               ++ [pendingTicketRecord t (analyze_priority_and_environment t)] }) := by
  have hroute : ∀ (p : String) (probe : Nat → Except String Nat) (l1 l2 : List Member),
      p ≠ "P1(Critical)" → find_best_assignee p false probe l1 l2 = .ok none := by
    intro p probe l1 l2 hp
    have hb : (p == "P1(Critical)") = false := by simpa using hp
    simp [find_best_assignee, hb]
  refine ⟨hroute, ?_⟩
  intro env st t henv hadj
  have h : find_best_assignee (analyze_priority_and_environment t).adjusted_priority
      env.hours env.probe env.l1 env.l2 = .ok none := by
    rw [henv]
    exact hroute _ env.probe env.l1 env.l2 hadj
  simp only [processTicketStep, h]

/-- Witness for C5: a concrete non-critical ticket outside operating hours
is deferred by routing, and the pipeline appends exactly the pending
placeholder record. -/
theorem outside_hours_deferral_witness :
    find_best_assignee "P2(High)" false (okProbe (fun _ => 0)) L1_MEMBERS L2_MEMBERS
      = .ok none ∧
    processTicketStep
        ⟨false, okProbe (fun _ => 0), L1_MEMBERS, L2_MEMBERS,
         (fun _ => OllamaOutcome.timeout), (fun _ => true)⟩
        {}
        ⟨99992, "Development environment deployment failing", "CI/CD pipeline failing",
         "P1(Critical)", 4, [⟨"Deployment Environment Tags", "dev"⟩]⟩
      = { ({} : LoopState) with
          priority_adjustments := ({} : LoopState).priority_adjustments +
            (if (analyze_priority_and_environment
                  ⟨99992, "Development environment deployment failing", "CI/CD pipeline failing",
                   "P1(Critical)", 4, [⟨"Deployment Environment Tags", "dev"⟩]⟩).was_downgraded
             then 1 else 0),
          processed_tickets := ({} : LoopState).processed_tickets
            ++ [pendingTicketRecord
                  ⟨99992, "Development environment deployment failing", "CI/CD pipeline failing",
                   "P1(Critical)", 4, [⟨"Deployment Environment Tags", "dev"⟩]⟩
                  (analyze_priority_and_environment
                    ⟨99992, "Development environment deployment failing", "CI/CD pipeline failing",
                     "P1(Critical)", 4, [⟨"Deployment Environment Tags", "dev"⟩]⟩)] } := by
  constructor
  · exact outside_hours_deferral.1 "P2(High)" (okProbe (fun _ => 0)) L1_MEMBERS L2_MEMBERS
      (by decide)
  · exact outside_hours_deferral.2
      ⟨false, okProbe (fun _ => 0), L1_MEMBERS, L2_MEMBERS,
       (fun _ => OllamaOutcome.timeout), (fun _ => true)⟩
      {}
      ⟨99992, "Development environment deployment failing", "CI/CD pipeline failing",
       "P1(Critical)", 4, [⟨"Deployment Environment Tags", "dev"⟩]⟩
      rfl (by decide)

/- ---------------------------------------------------------------------------
Claim C6.
--------------------------------------------------------------------------- -/

theorem fallback_ne_empty (t : Ticket) (environment priority : String) :
    generate_professional_fallback_analysis t environment priority ≠ "" := by
  intro h
  simp only [generate_professional_fallback_analysis] at h
  have hd := congrArg String.data h
  rw [String.data_append] at hd
  have h2 := (List.append_eq_nil.1 hd).2
  exact absurd h2 (by decide)

theorem categorize_first_match (combined : String) :
    (categorize combined).1 = firstMatchingCategory combined := by
  by_cases h1 : (["kubernetes", "k8s", "pod", "deployment", "namespace"].any
      (fun w => strContains combined w)) = true
  · simp [categorize, firstMatchingCategory, categoryKeywordTable, List.find?, h1]
  · by_cases h2 : (["rabbitmq", "rabbit", "mq", "queue", "message"].any
        (fun w => strContains combined w)) = true
    · simp [categorize, firstMatchingCategory, categoryKeywordTable, List.find?, h1, h2]
    · by_cases h3 : (["redis", "cache", "session"].any
          (fun w => strContains combined w)) = true
      · simp [categorize, firstMatchingCategory, categoryKeywordTable, List.find?, h1, h2, h3]
      · by_cases h4 : (["kafka", "streaming", "topic"].any
            (fun w => strContains combined w)) = true
        · simp [categorize, firstMatchingCategory, categoryKeywordTable, List.find?,
                h1, h2, h3, h4]
        · by_cases h5 : (["elasticsearch", "elastic", "search"].any
              (fun w => strContains combined w)) = true
          · simp [categorize, firstMatchingCategory, categoryKeywordTable, List.find?,
                  h1, h2, h3, h4, h5]
          · by_cases h6 : (["gitlab", "ci/cd", "pipeline", "build"].any
                (fun w => strContains combined w)) = true
            · simp [categorize, firstMatchingCategory, categoryKeywordTable, List.find?,
                    h1, h2, h3, h4, h5, h6]
            · by_cases h7 : (["database", "db", "sql", "mysql", "postgres"].any
                  (fun w => strContains combined w)) = true
              · simp [categorize, firstMatchingCategory, categoryKeywordTable, List.find?,
                      h1, h2, h3, h4, h5, h6, h7]
              · simp [categorize, firstMatchingCategory, categoryKeywordTable, List.find?,
                      h1, h2, h3, h4, h5, h6, h7]

/-- Claim C6: for every ticket and every behavior of the generation
backend, `analyze_with_ollama` returns non-empty text (it never raises:
it is a total function of the backend outcome); on every backend failure
(empty or whitespace-only response, non-200 status, timeout, transport
error) it returns the deterministic category-driven fallback template; and
the fallback's category is the first category in the fixed priority order
whose keywords match the combined lowercased subject and description. -/
theorem analysis_generator_total (o : OllamaOutcome) (t : Ticket) (env p : String) :
    analyze_with_ollama o t env p ≠ "" ∧
    (backendFailed o = true →
      analyze_with_ollama o t env p = generate_professional_fallback_analysis t env p) ∧
    (categorize (combinedText t)).1 = firstMatchingCategory (combinedText t) := by
  refine ⟨?_, ?_, categorize_first_match _⟩
  · cases o with
    | reply status body =>
      simp only [analyze_with_ollama]
      by_cases hs : (status == 200) = true
      · by_cases hb : (trimStr body == "") = true
        · simp only [hs, hb, if_true]
          exact fallback_ne_empty t env p
        · simp only [hs, if_true]
          simp only [Bool.not_eq_true] at hb
          simp only [hb]
          simp only [beq_eq_false_iff_ne, ne_eq] at hb
          simpa using hb
      · simp only [Bool.not_eq_true] at hs
        simp only [hs]
        exact fallback_ne_empty t env p
    | timeout => exact fallback_ne_empty t env p
    | transportError m => exact fallback_ne_empty t env p
  · intro hfail
    cases o with
    | reply status body =>
      simp only [backendFailed] at hfail
      by_cases hs : (status == 200) = true
      · have hb : (trimStr body == "") = true := by
          have hs2 : (status != 200) = false := by
            simp only [bne, hs, Bool.not_true]
          rw [hs2, Bool.false_or] at hfail
          exact hfail
        simp only [analyze_with_ollama, hs, hb, if_true]
      · simp only [Bool.not_eq_true] at hs
        simp [analyze_with_ollama, hs]
    | timeout => rfl
    | transportError m => rfl

/-- Witness for C6: on a concrete Kubernetes-related ticket, a timeout
yields the fallback template, and a successful non-empty reply yields the
stripped reply text. -/
theorem analysis_generator_total_witness :
    analyze_with_ollama OllamaOutcome.timeout
        ⟨5, "Pod crashloop in kubernetes", "namespace prod-a pods restarting",
         "P1(Critical)", 4, []⟩ "prod" "P1(Critical)"
      = generate_professional_fallback_analysis
          ⟨5, "Pod crashloop in kubernetes", "namespace prod-a pods restarting",
           "P1(Critical)", 4, []⟩ "prod" "P1(Critical)" ∧
    analyze_with_ollama (OllamaOutcome.reply 200 "  Restart the pod.  ")
        ⟨5, "Pod crashloop in kubernetes", "namespace prod-a pods restarting",
         "P1(Critical)", 4, []⟩ "prod" "P1(Critical)" ≠ "" := by
  constructor
  · exact (analysis_generator_total OllamaOutcome.timeout
      ⟨5, "Pod crashloop in kubernetes", "namespace prod-a pods restarting",
       "P1(Critical)", 4, []⟩ "prod" "P1(Critical)").2.1 rfl
  · exact (analysis_generator_total (OllamaOutcome.reply 200 "  Restart the pod.  ")
      ⟨5, "Pod crashloop in kubernetes", "namespace prod-a pods restarting",
       "P1(Critical)", 4, []⟩ "prod" "P1(Critical)").1

/- ---------------------------------------------------------------------------
Claim C7.
--------------------------------------------------------------------------- -/

/-- Claim C7 (amended): if the initial ticket fetch fails, the fetch helper
swallows the error and returns no tickets, and the pipeline then returns
the empty run summary with zero processed tickets that is marked
SUCCESSFUL and carries only the fixed note `"No new tickets found"` — the
fetch error is not propagated into the summary. -/
theorem fetch_failure_yields_empty_success (msg : String) (env : PipelineEnv) :
    get_new_devops_tickets (.error msg) = [] ∧
    process_tickets (.error msg) env
      = { success := true, processed_tickets := [], total_processed := 0,
          priority_adjustments := 0, ollama_analyses := 0,
          errors := ["No new tickets found"] } :=
  ⟨rfl, rfl⟩

/-- Counterexample to claim C7 as stated: with an unreachable ticket
source, the run summary has `success = true` (not false) and its error
list is the fixed note, not the fetch error. -/
theorem fetch_failure_counterexample :
    (process_tickets (.error "connection refused")
        ⟨true, okProbe (fun _ => 0), L1_MEMBERS, L2_MEMBERS,
         (fun _ => OllamaOutcome.timeout), (fun _ => true)⟩).success = true ∧
    (process_tickets (.error "connection refused")
        ⟨true, okProbe (fun _ => 0), L1_MEMBERS, L2_MEMBERS,
         (fun _ => OllamaOutcome.timeout), (fun _ => true)⟩).errors
      = ["No new tickets found"] ∧
    (process_tickets (.error "connection refused")
        ⟨true, okProbe (fun _ => 0), L1_MEMBERS, L2_MEMBERS,
         (fun _ => OllamaOutcome.timeout), (fun _ => true)⟩).total_processed = 0 :=
  ⟨rfl, rfl, rfl⟩

/- ---------------------------------------------------------------------------
Claim C8.
--------------------------------------------------------------------------- -/

theorem processTicketStep_count (env : PipelineEnv) (st : LoopState) (t : Ticket) :
    (processTicketStep env st t).processed_tickets.length
      + (processTicketStep env st t).errors.length
      = st.processed_tickets.length + st.errors.length + 1 := by
  simp only [processTicketStep]
  cases h : find_best_assignee (analyze_priority_and_environment t).adjusted_priority
      env.hours env.probe env.l1 env.l2 with
  | error e => simp [List.length_append]; omega
  | ok oa =>
    cases oa with
    | none => simp [List.length_append]; omega
    | some a =>
      cases hat : a.assignment_type with
      | none => simp [hat, List.length_append]; omega
      | some atype =>
        cases har : a.reason with
        | none => simp [hat, har, List.length_append]; omega
        | some reason => simp [hat, har, List.length_append]; omega

theorem foldl_step_count (env : PipelineEnv) :
    ∀ (ts : List Ticket) (st : LoopState),
      (ts.foldl (processTicketStep env) st).processed_tickets.length
        + (ts.foldl (processTicketStep env) st).errors.length
      = st.processed_tickets.length + st.errors.length + ts.length := by
  intro ts
  induction ts with
  | nil => intro st; simp
  | cons t ts ih =>
    intro st
    simp only [List.foldl_cons, List.length_cons]
    rw [ih (processTicketStep env st t)]
    have := processTicketStep_count env st t
    omega

/-- Claim C8: for every non-empty batch and every collaborator behavior,
the pipeline returns a structured summary with `success = true`, no
exception escapes (the function is total), and every ticket is accounted
for exactly once: tickets that raise land as error strings in the error
list, all the others land in the processed list, so the two lengths sum to
the batch size. -/
theorem batch_isolation (ts : List Ticket) (env : PipelineEnv) (h : ts ≠ []) :
    (process_tickets (.ok ts) env).success = true ∧
    (process_tickets (.ok ts) env).processed_tickets.length
      + (process_tickets (.ok ts) env).errors.length = ts.length ∧
    (process_tickets (.ok ts) env).total_processed
      = (process_tickets (.ok ts) env).processed_tickets.length := by
  have hne : ts.isEmpty = false := by
    cases ts with
    | nil => exact absurd rfl h
    | cons a as => rfl
  simp only [process_tickets, get_new_devops_tickets, hne]
  refine ⟨rfl, ?_, rfl⟩
  have hc := foldl_step_count env ts {}
  simpa using hc

/-- Witness for C8: a concrete two-ticket batch in which the first ticket
raises (its Tier2 probe fails, so the raw fallback record later triggers
the KeyError) and the second is assigned normally; the summary still
accounts for both tickets and reports success. -/
theorem batch_isolation_witness :
    (process_tickets
        (.ok [⟨99991, "Production database connection timeout", "prod db down",
               "P1(Critical)", 4, [⟨"Deployment Environment Tags", "prod"⟩]⟩,
              ⟨99993, "Disk usage report", "monthly report request",
               "P3(Medium)", 3, []⟩])
        ⟨true, (fun u => if u == 21 then Except.error "boom" else Except.ok 0),
         L1_MEMBERS, L2_MEMBERS, (fun _ => OllamaOutcome.timeout),
         (fun _ => true)⟩).processed_tickets.length
      + (process_tickets
          (.ok [⟨99991, "Production database connection timeout", "prod db down",
                 "P1(Critical)", 4, [⟨"Deployment Environment Tags", "prod"⟩]⟩,
                ⟨99993, "Disk usage report", "monthly report request",
                 "P3(Medium)", 3, []⟩])
          ⟨true, (fun u => if u == 21 then Except.error "boom" else Except.ok 0),
           L1_MEMBERS, L2_MEMBERS, (fun _ => OllamaOutcome.timeout),
           (fun _ => true)⟩).errors.length = 2 ∧
    (process_tickets
        (.ok [⟨99991, "Production database connection timeout", "prod db down",
               "P1(Critical)", 4, [⟨"Deployment Environment Tags", "prod"⟩]⟩,
              ⟨99993, "Disk usage report", "monthly report request",
               "P3(Medium)", 3, []⟩])
        ⟨true, (fun u => if u == 21 then Except.error "boom" else Except.ok 0),
         L1_MEMBERS, L2_MEMBERS, (fun _ => OllamaOutcome.timeout),
         (fun _ => true)⟩).success = true := by
  have h := batch_isolation
      [⟨99991, "Production database connection timeout", "prod db down",
        "P1(Critical)", 4, [⟨"Deployment Environment Tags", "prod"⟩]⟩,
       ⟨99993, "Disk usage report", "monthly report request",
        "P3(Medium)", 3, []⟩]
      ⟨true, (fun u => if u == 21 then Except.error "boom" else Except.ok 0),
       L1_MEMBERS, L2_MEMBERS, (fun _ => OllamaOutcome.timeout),
       (fun _ => true)⟩
      (by simp)
  exact ⟨h.2.1, h.1⟩

/- ---------------------------------------------------------------------------
Claim C10.
--------------------------------------------------------------------------- -/

/-- Claim C10: for a ticket whose adjusted urgency is `P1(Critical)`, if
the Tier2 selection raises, the routing fallback returns the raw first
configured Tier2 member record, which has neither `assignment_type` nor
`reason`; the pipeline's read of `assignment_type` then raises KeyError,
so the ticket ends as a per-ticket error entry (it is not appended to the
processed results).  With an empty Tier2 pool the fallback indexing itself
raises IndexError, and the ticket again ends as a per-ticket error,
unrouted. -/
theorem critical_fallback_keyerror (env : PipelineEnv) (st : LoopState) (t : Ticket)
    (hcrit : (analyze_priority_and_environment t).adjusted_priority = "P1(Critical)") :
    (∀ m rest, env.l2 = m :: rest →
       (∃ e, selectL2Critical env.probe (m :: rest) = Except.error e) →
       find_best_assignee "P1(Critical)" env.hours env.probe env.l1 env.l2
         = .ok (some { member := m, assignment_type := none, reason := none }) ∧
       processTicketStep env st t
         = { st with
             priority_adjustments := st.priority_adjustments +
               (if (analyze_priority_and_environment t).was_downgraded then 1 else 0),
             ollama_analyses := st.ollama_analyses + 1,
             errors := st.errors ++
               ["Error processing ticket #" ++ toString t.id ++ ": \x27assignment_type\x27"] }) ∧
    (env.l2 = [] →
       find_best_assignee "P1(Critical)" env.hours env.probe env.l1 env.l2
         = .error "IndexError: list index out of range" ∧
       processTicketStep env st t
         = { st with
             priority_adjustments := st.priority_adjustments +
               (if (analyze_priority_and_environment t).was_downgraded then 1 else 0),
             errors := st.errors ++
               ["Error processing ticket #" ++ toString t.id ++ ": "
                 ++ "IndexError: list index out of range"] }) := by
  constructor
  · intro m rest hl2 hsel
    obtain ⟨e, he⟩ := hsel
    have hfind : find_best_assignee "P1(Critical)" env.hours env.probe env.l1 env.l2
        = .ok (some { member := m, assignment_type := none, reason := none }) := by
      rw [hl2]
      simp [find_best_assignee, he]
    refine ⟨hfind, ?_⟩
    have hfind2 : find_best_assignee (analyze_priority_and_environment t).adjusted_priority
        env.hours env.probe env.l1 env.l2
        = .ok (some { member := m, assignment_type := none, reason := none }) := by
      rw [hcrit]
      exact hfind
    simp only [processTicketStep, hfind2]
  · intro hl2
    have hfind : find_best_assignee "P1(Critical)" env.hours env.probe env.l1 env.l2
        = .error "IndexError: list index out of range" := by
      rw [hl2]
      simp [find_best_assignee, selectL2Critical, minExceptBy]
    refine ⟨hfind, ?_⟩
    have hfind2 : find_best_assignee (analyze_priority_and_environment t).adjusted_priority
        env.hours env.probe env.l1 env.l2
        = .error "IndexError: list index out of range" := by
      rw [hcrit]
      exact hfind
    simp only [processTicketStep, hfind2]

/-- Witness for C10: with a probe that raises for the first configured
Tier2 responder, a concrete production-critical ticket is handed the raw
fallback record and then lands in the error list with the KeyError
message; with an empty Tier2 pool it lands in the error list with the
IndexError message; in both cases nothing is appended to the processed
results. -/
theorem critical_fallback_keyerror_witness :
    find_best_assignee "P1(Critical)" true
        (fun u => if u == 21 then Except.error "boom" else Except.ok 0)
        L1_MEMBERS L2_MEMBERS
      = .ok (some { member := ⟨21, "Arun Ramdas", none⟩,
                    assignment_type := none, reason := none }) ∧
    (processTicketStep
        ⟨true, (fun u => if u == 21 then Except.error "boom" else Except.ok 0),
         L1_MEMBERS, L2_MEMBERS, (fun _ => OllamaOutcome.timeout), (fun _ => true)⟩
        {}
        ⟨99991, "Production database connection timeout", "prod db down",
         "P1(Critical)", 4, [⟨"Deployment Environment Tags", "prod"⟩]⟩).errors
      = ["Error processing ticket #99991: \x27assignment_type\x27"] ∧
    (processTicketStep
        ⟨true, (fun u => if u == 21 then Except.error "boom" else Except.ok 0),
         L1_MEMBERS, L2_MEMBERS, (fun _ => OllamaOutcome.timeout), (fun _ => true)⟩
        {}
        ⟨99991, "Production database connection timeout", "prod db down",
         "P1(Critical)", 4, [⟨"Deployment Environment Tags", "prod"⟩]⟩).processed_tickets
      = [] ∧
    (processTicketStep
        ⟨true, (fun u => if u == 21 then Except.error "boom" else Except.ok 0),
         L1_MEMBERS, [], (fun _ => OllamaOutcome.timeout), (fun _ => true)⟩
        {}
        ⟨99991, "Production database connection timeout", "prod db down",
         "P1(Critical)", 4, [⟨"Deployment Environment Tags", "prod"⟩]⟩).errors
      = ["Error processing ticket #99991: IndexError: list index out of range"] := by
  have h1 := (critical_fallback_keyerror
      ⟨true, (fun u => if u == 21 then Except.error "boom" else Except.ok 0),
       L1_MEMBERS, L2_MEMBERS, (fun _ => OllamaOutcome.timeout), (fun _ => true)⟩
      {}
      ⟨99991, "Production database connection timeout", "prod db down",
       "P1(Critical)", 4, [⟨"Deployment Environment Tags", "prod"⟩]⟩
      (by decide)).1
      ⟨21, "Arun Ramdas", none⟩
      [⟨155, "Manoja Ningaraja", none⟩, ⟨11, "Jerish Vijay", none⟩,
       ⟨10, "Angel Varghese", none⟩]
      rfl ⟨"boom", rfl⟩
  have h2 := (critical_fallback_keyerror
      ⟨true, (fun u => if u == 21 then Except.error "boom" else Except.ok 0),
       L1_MEMBERS, [], (fun _ => OllamaOutcome.timeout), (fun _ => true)⟩
      {}
      ⟨99991, "Production database connection timeout", "prod db down",
       "P1(Critical)", 4, [⟨"Deployment Environment Tags", "prod"⟩]⟩
      (by decide)).2 rfl
  refine ⟨h1.1, ?_, ?_, ?_⟩
  · rw [h1.2]
    rfl
  · rw [h1.2]
  · rw [h2.2]
    rfl

/-- Witness for C2 (amended): outside operating hours, a critical ticket
with the configured Tier2 pool and a concrete workload table is assigned
to the least-loaded Tier2 responder, Jerish Vijay with 2 active tickets. -/
theorem critical_routing_assigns_l2_witness :
    find_best_assignee "P1(Critical)" false
        (okProbe (fun u => if u == 11 then 2 else if u == 155 then 3 else
                           if u == 10 then 4 else 5))
        [] L2_MEMBERS
      = .ok (some { member := ⟨11, "Jerish Vijay", none⟩,
                    assignment_type := some "L2_CRITICAL_PROD",
                    reason := some "P1 Critical PRODUCTION issue - L2 team (24/7) - Current load: 2 tickets" }) := by
  have h := (critical_routing_assigns_l2 false
      (fun u => if u == 11 then 2 else if u == 155 then 3 else if u == 10 then 4 else 5)
      [] ⟨21, "Arun Ramdas", none⟩
      [⟨155, "Manoja Ningaraja", none⟩, ⟨11, "Jerish Vijay", none⟩,
       ⟨10, "Angel Varghese", none⟩]).1.1
  exact h
